import Mathlib

/-!
# Verification of the volunteer-connect client-side state synchronization layer

Shallow embedding of the session store (`AuthContext`), the change-feed
subscriber and the aggregation layer of `OrganizationDashboard.tsx`,
with proofs of the specified properties.

Timestamps are modelled as `Int` (milliseconds since epoch, as produced by
JavaScript `Date.getTime()`); nullable / possibly-absent JavaScript values
are modelled as `Option`.
-/

namespace VolunteerConnect

/-- Milliseconds since the epoch, the value of `Date.getTime()`. -/
abbrev Time := Int

/-- An `events` table row, with the fields the dashboard reads.
`current_volunteers` is nullable in the row shape (the code guards it
with `|| 0`). -/
structure Event where
  id : String
  organization_id : String
  date : Time
  current_volunteers : Option Nat
  volunteers_needed : Nat
deriving Repr, DecidableEq

/-- date-fns `isPast(date)`: `date.getTime() < Date.now()`, with `now` made
an explicit parameter. -/
def isPast (now : Time) (date : Time) : Bool :=
  date < now

/-- The derived statistics record computed by `OrganizationDashboard`. -/
structure Stats where
  totalEvents : Nat
  activeEvents : Nat
  totalVolunteers : Nat
  completedEvents : Nat
deriving Repr, DecidableEq

/-- The `stats` object of `OrganizationDashboard.tsx` (lines 153–158).
`events` is `Option` because the query data may be `undefined`; each field
carries the source's `|| 0` fallback, which on the modelled types is
`Option.getD 0`. -/
def stats (events : Option (List Event)) (now : Time) : Stats :=
  { totalEvents := (events.map List.length).getD 0
    activeEvents :=
      (events.map fun es => (es.filter fun e => !(isPast now e.date)).length).getD 0
    totalVolunteers :=
      (events.map fun es =>
        es.foldl (fun acc e => acc + e.current_volunteers.getD 0) 0).getD 0
    completedEvents :=
      (events.map fun es => (es.filter fun e => isPast now e.date).length).getD 0 }

/-- A `registrations` row as the dashboard holds it after enrichment:
`user_id` is nullable and `user_email` may be absent or null. -/
structure Registration where
  id : String
  event_id : String
  user_id : Option String
  registration_time : Time
  user_email : Option String
deriving Repr, DecidableEq

/-- `getEventRegistrations` of `OrganizationDashboard.tsx` (lines 149–151):
`registrations?.filter(reg => reg.event_id === eventId) || []`. -/
def getEventRegistrations (registrations : Option (List Registration))
    (eventId : String) : List Registration :=
  (registrations.map fun rs => rs.filter fun r => r.event_id == eventId).getD []

/-! ## Session store (AuthContext, `src/unnamed/part_000`) -/

/-- An identity-provider user, as returned by the auth backend; `id` is a
string, checked for JavaScript truthiness (non-empty) before routing. -/
structure SupaUser where
  id : String
deriving Repr, DecidableEq

/-- Observable actions emitted by the session-store operations, in order. -/
inductive AuthAction where
  | remoteSignOutCall
  | remoteSignUpCall
  | remoteSignInCall
  | settleDelay (ms : Nat)
  | postAuthRouting (userId : String)
  | navigate (path : String)
  | successToast (msg : String)
  | errorToast
deriving Repr, DecidableEq

/-- Modelled from the spec: `handleAuthError` (imported from `auth-utils`,
which is not under `src/`) converts an auth error into a user-visible
notification; it performs no navigation. -/
def handleAuthError : List AuthAction :=
  [.errorToast]

/-- `signOut` of the AuthProvider (lines 96–104): calls the remote
sign-out; a non-null `error` is thrown into the catch, which runs
`handleAuthError`; otherwise `navigate("/login")` runs. `remoteError` is
the `error` field of the remote call's result. -/
def signOut (remoteError : Option String) : List AuthAction :=
  .remoteSignOutCall ::
    (match remoteError with
     | none => [.navigate "/login"]
     | some _ => handleAuthError)

/-- `signUp` of the AuthProvider (lines 44–75): calls the remote sign-up
(throwing on a non-null error or a null `user`), then signs in with the
same credentials (throwing on a non-null error), awaits a 1500 ms settle
delay, and — if the new user's id is truthy — runs post-auth routing and a
success toast. Thrown errors land in `handleAuthError`. -/
def signUp (signUpResult : Except String (Option SupaUser))
    (signInError : Option String) : List AuthAction :=
  .remoteSignUpCall ::
    (match signUpResult with
     | .error _ => handleAuthError
     | .ok none => handleAuthError
     | .ok (some u) =>
       .remoteSignInCall ::
         (match signInError with
          | some _ => handleAuthError
          | none =>
            .settleDelay 1500 ::
              (if u.id.isEmpty then []
               else [.postAuthRouting u.id,
                     .successToast "Account created and logged in successfully!"])))

/-- The in-memory Session of the AuthProvider: the current user's id (or
none) and the `loading` flag. -/
structure Session where
  user : Option String
  loading : Bool
deriving Repr, DecidableEq

/-- The AuthProvider's initial state: `useState(null)`, `useState(true)`. -/
def initialSession : Session :=
  ⟨none, true⟩

/-- Events that reach the AuthProvider's session state: completion of the
initial `getSession` restore, an `onAuthStateChange` notification, and the
sign-in/sign-up/sign-out operations (which never call `setUser`/`setLoading`
themselves — only the restore and the auth-state subscription do). -/
inductive SessionEvent where
  | restoreComplete (sessionUser : Option String)
  | authChange (sessionUser : Option String)
  | signInOp
  | signUpOp
  | signOutOp
deriving Repr, DecidableEq

/-- The AuthProvider's state transition (lines 22–42): both the restore
callback and the auth-state-change callback set `user` from the delivered
session and set `loading := false`; the operations leave the session
state unchanged. -/
def sessionStep : Session → SessionEvent → Session
  | _, .restoreComplete u => ⟨u, false⟩
  | _, .authChange u => ⟨u, false⟩
  | s, .signInOp => s
  | s, .signUpOp => s
  | s, .signOutOp => s

/-- Run a sequence of session events from a state. -/
def sessionRun (s : Session) (es : List SessionEvent) : Session :=
  es.foldl sessionStep s

/-! ## Helper lemmas for the aggregation layer -/

/-- Splitting a list's length by a boolean predicate. -/
theorem length_filter_add_length_filter_not (p : Event → Bool) (es : List Event) :
    (es.filter fun e => !(p e)).length + (es.filter p).length = es.length := by
  induction es with
  | nil => rfl
  | cons e es ih =>
    by_cases h : p e
    · simp [List.filter, h, ← ih]
      omega
    · simp [List.filter, h, ← ih]
      omega

/-- The `reduce`-style left fold of `current_volunteers` equals the sum of
the mapped list, for any accumulator. -/
theorem foldl_volunteers_eq_sum (es : List Event) (acc : Nat) :
    es.foldl (fun acc e => acc + e.current_volunteers.getD 0) acc
      = acc + (es.map fun e => e.current_volunteers.getD 0).sum := by
  induction es generalizing acc with
  | nil => simp
  | cons e es ih => simp [List.foldl, ih, List.sum_cons]; omega

/-! ## Change-feed subscriber (`OrganizationDashboard.tsx`, lines 94–147) -/

/-- A Query Cache key: the TanStack `queryKey` tuple, a kind tag plus the
scoping user id (`user?.id`, possibly undefined). -/
structure QueryKey where
  kind : String
  scope : Option String
deriving Repr, DecidableEq

/-- The key `['organization-events', user?.id]`. -/
def organizationEventsKey (userId : Option String) : QueryKey :=
  ⟨"organization-events", userId⟩

/-- The key `['organization-registrations', user?.id]`. -/
def organizationRegistrationsKey (userId : Option String) : QueryKey :=
  ⟨"organization-registrations", userId⟩

/-- The kind of a row-level change; both channels subscribe with
`event: '*'`, covering all three. -/
inductive ChangeType where
  | insert
  | update
  | delete
deriving Repr, DecidableEq

/-- A row-level change notification from the backend, with the columns the
two channel filters read. -/
structure Notification where
  table : String
  changeType : ChangeType
  rowEventId : Option String
  rowOrganizationId : Option String
deriving Repr, DecidableEq

/-- The events-channel filter `organization_id=eq.${user.id}` (line 105). -/
def eventsFilterMatches (userId : String) (n : Notification) : Bool :=
  n.table == "events" && n.rowOrganizationId == some userId

/-- The registrations-channel filter `event_id=in.(...)` over the owned
event ids (line 134). -/
def registrationsFilterMatches (eventIds : List String) (n : Notification) : Bool :=
  n.table == "registrations"
    && (match n.rowEventId with
        | some eid => eventIds.contains eid
        | none => false)

/-- The events-channel callback (lines 107–110): invalidates the
organization's events key. -/
def eventsChannelCallback (userId : Option String) (_payload : Notification) :
    List QueryKey :=
  [organizationEventsKey userId]

/-- The registrations-channel callback (lines 136–140): invalidates the
organization's registrations key, then its events key. -/
def registrationsChannelCallback (userId : Option String) (_payload : Notification) :
    List QueryKey :=
  [organizationRegistrationsKey userId, organizationEventsKey userId]

/-- Dispatch of one backend notification to the dashboard's two channels:
each channel whose filter matches the notification runs its callback; the
result is the list of invalidated keys, in callback order. -/
def dispatchNotification (userId : String) (eventIds : List String)
    (n : Notification) : List QueryKey :=
  (if eventsFilterMatches userId n then eventsChannelCallback (some userId) n
   else [])
    ++ (if registrationsFilterMatches eventIds n
        then registrationsChannelCallback (some userId) n
        else [])

/-! ## Registrations query function (`OrganizationDashboard.tsx`, lines 39–92) -/

/-- A raw `registrations` row from the primary query; the joined profile
columns are omitted (the enrichment step reads only `user_id`). -/
structure RawRegistration where
  id : String
  event_id : String
  user_id : Option String
  registration_time : Time
deriving Repr, DecidableEq

/-- A row of the secondary email query over `profiles`: the profile id and
the joined `auth.users` email, which may itself be null. -/
structure ProfileEmailRow where
  id : String
  user_email : Option String
deriving Repr, DecidableEq

/-- A registration as the queryFn returns it: the raw row plus the
`user_email` field (`none` models both JavaScript `null` and an absent
field). -/
structure EnrichedRegistration where
  raw : RawRegistration
  user_email : Option String
deriving Repr, DecidableEq

/-- The `organization-registrations` queryFn (lines 41–90), with the two
backend query results passed as parameters and the console error log made
explicit. Returns the query outcome (a primary failure is thrown) together
with the list of logged error messages. On a secondary-lookup failure the
raw rows are returned unenriched — their email is absent (`none`) — and
the failure is logged. -/
def registrationsQueryFn (events : List Event)
    (primary : Except String (List RawRegistration))
    (emailLookup : Except String (List ProfileEmailRow)) :
    Except String (List EnrichedRegistration) × List String :=
  if events.isEmpty then (.ok [], [])
  else
    match primary with
    | .error e => (.error e, [])
    | .ok data =>
      let userIds := data.filterMap (·.user_id)
      if userIds.isEmpty then
        (.ok (data.map fun r => ⟨r, none⟩), [])
      else
        match emailLookup with
        | .error e =>
          (.ok (data.map fun r => ⟨r, none⟩),
           ["Error fetching user emails: " ++ e])
        | .ok rows =>
          let emailMap := rows.map fun u => (u.id, u.user_email)
          (.ok (data.map fun r =>
              ⟨r, r.user_id.bind fun uid => (emailMap.lookup uid).bind id⟩),
           [])

/-! ## Registrations-channel lifecycle (`OrganizationDashboard.tsx`, lines 119–147) -/

/-- A change-feed channel: the table it watches and its filter (for the
registrations channel, the owned event-id list). -/
structure Channel where
  table : String
  filterIds : List String
deriving Repr, DecidableEq

/-- The registrations channel for a given owned event-id set
(`event_id=in.(ids)`). -/
def regChannelFor (eventIds : List String) : Channel :=
  ⟨"registrations", eventIds⟩

/-- The channel the registrations effect body opens for the given
dependencies: none when there is no user, no events, or no event ids
(the effect's two early returns); otherwise the registrations channel
filtered on the current owned event ids. -/
def effectChannel (user : Option String) (events : Option (List Event)) :
    Option Channel :=
  match user, events with
  | some _, some es =>
    if es.isEmpty then none
    else
      let eventIds := es.map (·.id)
      if eventIds.isEmpty then none else some (regChannelFor eventIds)
  | _, _ => none

/-- Open/close actions on channels, in emission order (`subscribe` /
`removeChannel`). -/
inductive ChannelAction where
  | opened (c : Channel)
  | closed (c : Channel)
deriving Repr, DecidableEq

/-- The registrations-channel slot of the dashboard view: whether the view
is mounted and which channel its live effect currently holds. -/
structure ViewState where
  mounted : Bool
  current : Option Channel
deriving Repr, DecidableEq

/-- Before the first mount: not mounted, no channel. -/
def initialView : ViewState :=
  ⟨false, none⟩

/-- Lifecycle events of the view: mount with the dependency values, a
dependency change (user or events — in particular the owned event-id set —
changed), and unmount. -/
inductive ViewEvent where
  | mount (user : Option String) (events : Option (List Event))
  | depsChange (user : Option String) (events : Option (List Event))
  | unmount
deriving Repr

/-- Actions emitted by the effect cleanup: `removeChannel` on the channel
the effect had opened, if any. -/
def closeActions : Option Channel → List ChannelAction
  | none => []
  | some c => [.closed c]

/-- Actions emitted by the effect body: `subscribe` on the channel it
opens, if any. -/
def openActions : Option Channel → List ChannelAction
  | none => []
  | some c => [.opened c]

/-- One React lifecycle step of the registrations effect: on mount the
effect body runs and may open a channel; on a dependency change the
cleanup closes the previously opened channel before the effect body runs
again; on unmount the cleanup closes it. Returns the new state and the
emitted actions in order. -/
def viewStep : ViewState → ViewEvent → ViewState × List ChannelAction
  | s, .mount user events =>
    if s.mounted then (s, [])
    else
      let c := effectChannel user events
      (⟨true, c⟩, openActions c)
  | s, .depsChange user events =>
    if s.mounted then
      let c := effectChannel user events
      (⟨true, c⟩, closeActions s.current ++ openActions c)
    else (s, [])
  | s, .unmount =>
    if s.mounted then (⟨false, none⟩, closeActions s.current)
    else (s, [])

/-- Run a sequence of lifecycle events, accumulating the action trace. -/
def viewRun : ViewState × List ChannelAction → List ViewEvent →
    ViewState × List ChannelAction
  | st, [] => st
  | (s, tr), e :: es =>
    let p := viewStep s e
    viewRun (p.1, tr ++ p.2) es

/-- Effect of one open/close action on the set of open channels
(`subscribe` adds, `removeChannel` removes). -/
def applyAction (cs : List Channel) : ChannelAction → List Channel
  | .opened c => cs ++ [c]
  | .closed c => cs.erase c

/-- The channels a trace of actions leaves open. -/
def openChannels (tr : List ChannelAction) : List Channel :=
  tr.foldl applyAction []

/-- The `loading` flag, once `false`, stays `false` under every session
event. -/
theorem sessionRun_loading_stays_false (es : List SessionEvent) :
    ∀ s : Session, s.loading = false → (sessionRun s es).loading = false := by
  induction es with
  | nil => intro s h; exact h
  | cons e es ih =>
    intro s h
    cases e with
    | restoreComplete u => exact ih _ rfl
    | authChange u => exact ih _ rfl
    | signInOp => exact ih _ h
    | signUpOp => exact ih _ h
    | signOutOp => exact ih _ h

/-! ## Session-store claims -/

/-- C3 (counterexample): the claim says every `signOut` run navigates to
the login route, including runs where the remote sign-out fails; in the
code a non-null error throws before `navigate("/login")` is reached, so a
failing run performs no navigation at all. -/
theorem C3_counterexample :
    AuthAction.navigate "/login" ∉ signOut (some "Network error") := by
  decide

/-- C3 (amended): `signOut` navigates to the login route exactly when the
remote sign-out call succeeds (its error is null); on failure the error is
converted to a notification and no navigation occurs. -/
theorem C3_signOut_navigation (remoteError : Option String) :
    AuthAction.navigate "/login" ∈ signOut remoteError ↔ remoteError = none := by
  cases remoteError <;> simp [signOut, handleAuthError]

/-- C6: every successful `signUp` run — one that reaches post-auth
routing — performed a sign-in call, and the 1500 ms settle delay sits
after the sign-in call and before post-auth routing. -/
theorem C6_signUp_delay_before_routing
    (signUpResult : Except String (Option SupaUser)) (signInError : Option String)
    (uid : String)
    (h : AuthAction.postAuthRouting uid ∈ signUp signUpResult signInError) :
    [AuthAction.remoteSignInCall, AuthAction.settleDelay 1500,
      AuthAction.postAuthRouting uid].Sublist (signUp signUpResult signInError) := by
  match signUpResult, signInError with
  | .error e, _ => simp [signUp, handleAuthError] at h
  | .ok none, _ => simp [signUp, handleAuthError] at h
  | .ok (some u), some e => simp [signUp, handleAuthError] at h
  | .ok (some u), none =>
    by_cases hid : u.id.isEmpty
    · simp [signUp, hid] at h
    · simp [signUp, hid] at h
      subst h
      simp only [signUp, hid, Bool.false_eq_true, if_false]
      exact .cons _ (.cons₂ _ (.cons₂ _ (.cons₂ _ (List.nil_sublist _))))

/-- C6 witness: a concrete successful sign-up run. -/
theorem C6_signUp_delay_before_routing_witness :
    [AuthAction.remoteSignInCall, AuthAction.settleDelay 1500,
      AuthAction.postAuthRouting "u1"].Sublist
      (signUp (.ok (some ⟨"u1"⟩)) none) :=
  C6_signUp_delay_before_routing (.ok (some ⟨"u1"⟩)) none "u1" (by decide)

/-- C8: the session's `loading` flag is `true` initially; after the restore
completes, and after every identity-change notification, it is `false` and
remains `false` under every further event — no later operation sets it
back to `true`. -/
theorem C8_loading_only_during_restore :
    initialSession.loading = true
    ∧ ∀ (s : Session) (u : Option String) (es : List SessionEvent),
        (sessionRun (sessionStep s (.restoreComplete u)) es).loading = false
        ∧ (sessionRun (sessionStep s (.authChange u)) es).loading = false := by
  refine ⟨rfl, fun s u es => ⟨?_, ?_⟩⟩ <;>
    exact sessionRun_loading_stays_false es _ rfl

/-! ## Aggregation-layer claims -/

/-- C1: for every cached event collection (including the undefined one) and
every evaluation time, `activeEvents + completedEvents = totalEvents`. -/
theorem C1_stats_partition (events : Option (List Event)) (now : Time) :
    (stats events now).activeEvents + (stats events now).completedEvents
      = (stats events now).totalEvents := by
  cases events with
  | none => rfl
  | some es =>
    simpa [stats] using length_filter_add_length_filter_not (isPast now ·.date) es

/-- C4 (counterexample): the claim says an event whose date equals `now` is
not counted as active (`activeEvents` counts `now < date` strictly); the code
counts such an event as active, because `isPast` is the strict `date < now`
and the code negates it. At `now = 5` with a single event dated `5`,
`activeEvents` is `1` while the claimed strict count is `0`. -/
theorem C4_counterexample :
    (stats (some [⟨"e1", "org1", 5, some 0, 10⟩]) 5).activeEvents
      ≠ (([⟨"e1", "org1", 5, some 0, 10⟩] : List Event).filter
          fun e => (5 : Time) < e.date).length := by
  decide

/-- C4 (amended): `activeEvents` counts exactly the events with
`now ≤ eventDateTime` (the negation of the strict `isPast`), so an event
whose date equals `now` IS counted as active, and `completedEvents` counts
exactly the events with `eventDateTime < now`. -/
theorem C4_active_completed_boundary (es : List Event) (now : Time) :
    (stats (some es) now).activeEvents
        = (es.filter fun e => now ≤ e.date).length
      ∧ (stats (some es) now).completedEvents
        = (es.filter fun e => e.date < now).length := by
  constructor
  · show (es.filter fun e => !(isPast now e.date)).length = _
    congr 1
    apply List.filter_congr
    intro e _
    simp only [isPast, ← decide_not, decide_eq_decide]
    exact Int.not_lt
  · rfl

/-- C7: `totalVolunteers` is the sum of the `current_volunteers` field
(null defaulting to 0, the source's `|| 0`) over all cached events. -/
theorem C7_totalVolunteers_sum (events : Option (List Event)) (now : Time) :
    (stats events now).totalVolunteers
      = ((events.getD []).map fun e => e.current_volunteers.getD 0).sum := by
  cases events with
  | none => rfl
  | some es => simpa [stats] using foldl_volunteers_eq_sum es 0

/-- C10: `getEventRegistrations` is total: when the registrations cache holds
no value (query disabled, pending, or errored — `registrations` is
undefined), it returns the empty list for every event id. -/
theorem C10_getEventRegistrations_total (eventId : String) :
    getEventRegistrations none eventId = [] := by
  rfl

/-! ## Change-feed and lifecycle claims -/

/-- Folding the action trace distributes over append. -/
theorem openChannels_append (tr acts : List ChannelAction) :
    openChannels (tr ++ acts) = acts.foldl applyAction (openChannels tr) := by
  simp [openChannels, List.foldl_append]

/-- One lifecycle step preserves the simulation invariant: the channels the
trace leaves open are exactly the channel the live effect holds, and an
unmounted view holds none. -/
theorem viewStep_invariant (s : ViewState) (tr : List ChannelAction) (e : ViewEvent)
    (h1 : openChannels tr = s.current.toList)
    (h2 : s.mounted = false → s.current = none) :
    openChannels (tr ++ (viewStep s e).2) = (viewStep s e).1.current.toList
      ∧ ((viewStep s e).1.mounted = false → (viewStep s e).1.current = none) := by
  obtain ⟨m, cur⟩ := s
  cases e with
  | mount user events =>
    cases m with
    | true => simpa [viewStep] using h1
    | false =>
      have hc : cur = none := h2 rfl
      subst hc
      simp only [Option.toList_none] at h1
      simp [viewStep, openChannels_append, h1]
      cases effectChannel user events <;> simp [openActions, applyAction]
  | depsChange user events =>
    cases m with
    | false => simpa [viewStep] using ⟨h1, h2 rfl⟩
    | true =>
      simp [viewStep, openChannels_append, h1]
      cases cur <;> cases effectChannel user events <;>
        simp [closeActions, openActions, applyAction]
  | unmount =>
    cases m with
    | false => simpa [viewStep] using ⟨h1, h2 rfl⟩
    | true =>
      simp [viewStep, openChannels_append, h1]
      cases cur <;> simp [closeActions, applyAction]

/-- Along every run from a state satisfying the invariant, the open
channels are exactly the live effect's channel. -/
theorem viewRun_invariant (evs : List ViewEvent) :
    ∀ (s : ViewState) (tr : List ChannelAction),
      openChannels tr = s.current.toList →
      (s.mounted = false → s.current = none) →
      openChannels (viewRun (s, tr) evs).2
        = (viewRun (s, tr) evs).1.current.toList := by
  induction evs with
  | nil => intro s tr h1 _; exact h1
  | cons e evs ih =>
    intro s tr h1 h2
    have h := viewStep_invariant s tr e h1 h2
    exact ih _ _ h.1 h.2

/-- C2: a change notification matching the registrations-channel filter
invalidates both the organization's registrations key and its events key;
one matching the events-channel filter invalidates the organization's
events key. -/
theorem C2_invalidation_keys (userId : String) (eventIds : List String)
    (n : Notification) :
    (registrationsFilterMatches eventIds n = true →
        organizationRegistrationsKey (some userId)
            ∈ dispatchNotification userId eventIds n
          ∧ organizationEventsKey (some userId)
            ∈ dispatchNotification userId eventIds n)
      ∧ (eventsFilterMatches userId n = true →
          organizationEventsKey (some userId)
            ∈ dispatchNotification userId eventIds n) := by
  constructor
  · intro h
    cases hev : eventsFilterMatches userId n <;>
      simp [dispatchNotification, h, hev,
        eventsChannelCallback, registrationsChannelCallback]
  · intro h
    cases hreg : registrationsFilterMatches eventIds n <;>
      simp [dispatchNotification, h, hreg,
        eventsChannelCallback, registrationsChannelCallback]

/-- C2 witness: a concrete registrations insert for `event_id = "1"`
invalidates both keys, and a concrete events update invalidates the
events key. -/
theorem C2_invalidation_keys_witness :
    (organizationRegistrationsKey (some "org")
        ∈ dispatchNotification "org" ["1"]
            ⟨"registrations", .insert, some "1", none⟩
      ∧ organizationEventsKey (some "org")
        ∈ dispatchNotification "org" ["1"]
            ⟨"registrations", .insert, some "1", none⟩)
    ∧ organizationEventsKey (some "org")
        ∈ dispatchNotification "org" ["1"]
            ⟨"events", .update, none, some "org"⟩ :=
  ⟨(C2_invalidation_keys "org" ["1"] ⟨"registrations", .insert, some "1", none⟩).1
      (by decide),
   (C2_invalidation_keys "org" ["1"] ⟨"events", .update, none, some "org"⟩).2
      (by decide)⟩

/-- C5: when a run reaches the secondary email lookup (there are events,
and at least one registration carries a user id) and that lookup fails,
the fetch still succeeds: every registration row is returned with its
email field `none`, and the failure is logged. -/
theorem C5_email_failure_graceful (events : List Event)
    (data : List RawRegistration) (e : String)
    (hev : events ≠ []) (hid : data.filterMap (·.user_id) ≠ []) :
    registrationsQueryFn events (.ok data) (.error e)
      = (.ok (data.map fun r => ⟨r, none⟩),
         ["Error fetching user emails: " ++ e]) := by
  simp [registrationsQueryFn, List.isEmpty_iff, hev, hid]

/-- C5 witness: a concrete run with one event, one registration carrying a
user id, and a failing email lookup. -/
theorem C5_email_failure_graceful_witness :
    registrationsQueryFn [⟨"1", "org", 0, none, 0⟩]
        (.ok [⟨"r1", "1", some "u1", 0⟩]) (.error "boom")
      = (.ok ([⟨"r1", "1", some "u1", 0⟩].map fun r => ⟨r, none⟩),
         ["Error fetching user emails: " ++ "boom"]) :=
  C5_email_failure_graceful _ _ _ (by decide) (by decide)

/-- C9: from the initial view state, every sequence of mount, dependency
change and unmount events leaves at most one registrations channel open;
and on a dependency (filter) change of a mounted view holding a channel,
the old channel's close action is emitted before the replacement channel
with the new filter opens. -/
theorem C9_channel_lifecycle :
    (∀ evs : List ViewEvent,
        (openChannels (viewRun (initialView, []) evs).2).length ≤ 1)
    ∧ ∀ (s : ViewState) (user : Option String) (events : Option (List Event))
        (c cNew : Channel),
        s.mounted = true → s.current = some c →
        effectChannel user events = some cNew →
        (viewStep s (.depsChange user events)).2
          = [.closed c, .opened cNew] := by
  constructor
  · intro evs
    have h := viewRun_invariant evs initialView [] rfl (fun _ => rfl)
    rw [h]
    cases (viewRun (initialView, []) evs).1.current <;> simp
  · intro s user events c cNew hm hc he
    obtain ⟨m, cur⟩ := s
    simp only at hm hc
    subst hm
    subst hc
    simp [viewStep, closeActions, openActions, he]

/-- C9 witness: a mounted view whose owned event-id set grows from
`["1", "2"]` to `["1", "2", "3"]` closes the old channel, then opens the
channel with the new filter. -/
theorem C9_channel_lifecycle_witness :
    (viewStep ⟨true, some (regChannelFor ["1", "2"])⟩
        (.depsChange (some "org")
          (some [⟨"1", "org", 0, none, 0⟩, ⟨"2", "org", 0, none, 0⟩,
                 ⟨"3", "org", 0, none, 0⟩]))).2
      = [.closed (regChannelFor ["1", "2"]),
         .opened (regChannelFor ["1", "2", "3"])] :=
  C9_channel_lifecycle.2 ⟨true, some (regChannelFor ["1", "2"])⟩ (some "org")
    (some [⟨"1", "org", 0, none, 0⟩, ⟨"2", "org", 0, none, 0⟩,
           ⟨"3", "org", 0, none, 0⟩])
    (regChannelFor ["1", "2"]) (regChannelFor ["1", "2", "3"])
    rfl rfl (by decide)

end VolunteerConnect
